import Mathlib

/-!
Verification of `src/test_preview.py` (the `create_test_directory` fixture
generator).

The script is a straight line of filesystem and console effects: it resolves
`test_dir` as the subdirectory `test_preview_files` of the script's own
directory, creates it (`os.makedirs(..., exist_ok=True)`), writes ten files
with fixed literal content (each opened with mode `"w"` and
`encoding="utf-8"`), prints one confirmation line per file, and returns
`test_dir`.

The embedding is in two layers:

* `create_test_directory scriptDir` is the pure trace of effects (`Op`) the
  Python function performs, paired with its return value, where `scriptDir`
  stands for `os.path.dirname(os.path.abspath(__file__))`.  Every operation
  and every literal is transcribed from the source in source order.
* `runOps` executes a trace against a filesystem model `FS` under a
  permission environment `Env`; a denied operation aborts the run with an
  error, leaving the state reached so far, which models an uncaught Python
  `OSError` propagating out of the function.
-/

/-- Exact content written to `sample.txt` by `create_test_directory`. -/
def sampleTxtContent : String :=
  "This is a sample text file for preview testing.\n" ++
  "It contains multiple lines of text.\n" ++
  "Line 3: Testing preview functionality.\n" ++
  "Line 4: Hello World!\n"

/-- Exact content written to `sample.json` by `create_test_directory`. -/
def sampleJsonContent : String :=
  "\x7b\n" ++
  "    \"name\": \"Preview Test\",\n" ++
  "    \"version\": \"1.0.0\",\n" ++
  "    \"description\": \"Sample JSON file for preview testing\",\n" ++
  "    \"features\": [\n" ++
  "        \"Syntax highlighting\",\n" ++
  "        \"Dark/Light theme support\",\n" ++
  "        \"Line numbers\"\n" ++
  "    ],\n" ++
  "    \"settings\": \x7b\n" ++
  "        \"enabled\": true,\n" ++
  "        \"maxSize\": 5000000\n" ++
  "    \x7d\n" ++
  "\x7d"

/-- Exact content written to `sample.py` by `create_test_directory`. -/
def samplePyContent : String :=
  "#!/usr/bin/env python3\n" ++
  "\"\"\"Sample Python file for preview testing.\"\"\"\n" ++
  "\n" ++
  "def hello_world():\n" ++
  "    \"\"\"Print hello world message.\"\"\"\n" ++
  "    print(\"Hello, World!\")\n" ++
  "    return True\n" ++
  "\n" ++
  "class Calculator:\n" ++
  "    \"\"\"A simple calculator class.\"\"\"\n" ++
  "    \n" ++
  "    def __init__(self):\n" ++
  "        self.result = 0\n" ++
  "    \n" ++
  "    def add(self, a, b):\n" ++
  "        \"\"\"Add two numbers.\"\"\"\n" ++
  "        self.result = a + b\n" ++
  "        return self.result\n" ++
  "    \n" ++
  "    def subtract(self, a, b):\n" ++
  "        \"\"\"Subtract two numbers.\"\"\"\n" ++
  "        self.result = a - b\n" ++
  "        return self.result\n" ++
  "\n" ++
  "if __name__ == \"__main__\":\n" ++
  "    hello_world()\n" ++
  "    calc = Calculator()\n" ++
  "    print(f\"5 + 3 = \x7bcalc.add(5, 3)\x7d\")\n"

/-- Exact content written to `Sample.cs` by `create_test_directory`. -/
def sampleCsContent : String :=
  "using System;\n" ++
  "\n" ++
  "namespace PreviewTest\n" ++
  "\x7b\n" ++
  "    /// <summary>\n" ++
  "    /// Sample C# class for preview testing.\n" ++
  "    /// </summary>\n" ++
  "    public class Sample\n" ++
  "    \x7b\n" ++
  "        public string Name \x7b get; set; \x7d\n" ++
  "        public int Value \x7b get; set; \x7d\n" ++
  "        \n" ++
  "        public Sample(string name, int value)\n" ++
  "        \x7b\n" ++
  "            Name = name;\n" ++
  "            Value = value;\n" ++
  "        \x7d\n" ++
  "        \n" ++
  "        public void PrintInfo()\n" ++
  "        \x7b\n" ++
  "            Console.WriteLine($\"Name: \x7bName\x7d, Value: \x7bValue\x7d\");\n" ++
  "        \x7d\n" ++
  "    \x7d\n" ++
  "    \n" ++
  "    class Program\n" ++
  "    \x7b\n" ++
  "        static void Main(string[] args)\n" ++
  "        \x7b\n" ++
  "            var sample = new Sample(\"Test\", 42);\n" ++
  "            sample.PrintInfo();\n" ++
  "        \x7d\n" ++
  "    \x7d\n" ++
  "\x7d\n"

/-- Exact content written to `sample.html` by `create_test_directory`. -/
def sampleHtmlContent : String :=
  "<!DOCTYPE html>\n" ++
  "<html lang=\"en\">\n" ++
  "<head>\n" ++
  "    <meta charset=\"UTF-8\">\n" ++
  "    <meta name=\"viewport\" content=\"width=device-width, initial-scale=1.0\">\n" ++
  "    <title>Preview Test</title>\n" ++
  "    <style>\n" ++
  "        body \x7b\n" ++
  "            font-family: \x27Segoe UI\x27, sans-serif;\n" ++
  "            background: linear-gradient(135deg, #667eea 0%, #764ba2 100%);\n" ++
  "            color: white;\n" ++
  "            padding: 40px;\n" ++
  "        \x7d\n" ++
  "        h1 \x7b color: #fff; \x7d\n" ++
  "        .card \x7b\n" ++
  "            background: white;\n" ++
  "            color: #333;\n" ++
  "            padding: 20px;\n" ++
  "            border-radius: 8px;\n" ++
  "            box-shadow: 0 4px 12px rgba(0,0,0,0.2);\n" ++
  "        \x7d\n" ++
  "    </style>\n" ++
  "</head>\n" ++
  "<body>\n" ++
  "    <h1>Preview Test Page</h1>\n" ++
  "    <div class=\"card\">\n" ++
  "        <h2>Welcome</h2>\n" ++
  "        <p>This is a sample HTML file for testing the preview functionality.</p>\n" ++
  "    </div>\n" ++
  "</body>\n" ++
  "</html>\n"

/-- Exact content written to `sample.css` by `create_test_directory`. -/
def sampleCssContent : String :=
  "/* Sample CSS file for preview testing */\n" ++
  "\n" ++
  ":root \x7b\n" ++
  "    --primary-color: #007ACC;\n" ++
  "    --secondary-color: #3E3E42;\n" ++
  "    --text-color: #CCCCCC;\n" ++
  "    --background-color: #1E1E1E;\n" ++
  "\x7d\n" ++
  "\n" ++
  "body \x7b\n" ++
  "    font-family: \x27Segoe UI\x27, Tahoma, Geneva, Verdana, sans-serif;\n" ++
  "    background-color: var(--background-color);\n" ++
  "    color: var(--text-color);\n" ++
  "    margin: 0;\n" ++
  "    padding: 20px;\n" ++
  "    line-height: 1.6;\n" ++
  "\x7d\n" ++
  "\n" ++
  ".container \x7b\n" ++
  "    max-width: 1200px;\n" ++
  "    margin: 0 auto;\n" ++
  "    padding: 20px;\n" ++
  "\x7d\n" ++
  "\n" ++
  ".button \x7b\n" ++
  "    background-color: var(--primary-color);\n" ++
  "    color: white;\n" ++
  "    border: none;\n" ++
  "    padding: 10px 20px;\n" ++
  "    border-radius: 4px;\n" ++
  "    cursor: pointer;\n" ++
  "    transition: background-color 0.3s ease;\n" ++
  "\x7d\n" ++
  "\n" ++
  ".button:hover \x7b\n" ++
  "    background-color: #005a9e;\n" ++
  "\x7d\n" ++
  "\n" ++
  "/* Responsive design */\n" ++
  "@media (max-width: 768px) \x7b\n" ++
  "    .container \x7b\n" ++
  "        padding: 10px;\n" ++
  "    \x7d\n" ++
  "\x7d\n"

/-- Exact content written to `README.md` by `create_test_directory`. -/
def readmeMdContent : String :=
  "# Preview Test\n" ++
  "\n" ++
  "This is a sample **Markdown** file for testing.\n" ++
  "\n" ++
  "## Features\n" ++
  "\n" ++
  "- Syntax highlighting\n" ++
  "- Dark/Light theme support\n" ++
  "- Line numbers\n" ++
  "\n" ++
  "## Code Example\n" ++
  "\n" ++
  "\x60\x60\x60python\n" ++
  "def hello():\n" ++
  "    print(\"Hello, World!\")\n" ++
  "\x60\x60\x60\n" ++
  "\n" ++
  "## Table\n" ++
  "\n" ++
  "| Feature | Status |\n" ++
  "|---------|--------|\n" ++
  "| Images | ✅ |\n" ++
  "| Text | ✅ |\n" ++
  "| PDF | ✅ |\n" ++
  "\n" ++
  "---\n" ++
  "\n" ++
  "*Created for preview testing*\n"

/-- Exact content written to `sample.xml` by `create_test_directory`. -/
def sampleXmlContent : String :=
  "<?xml version=\"1.0\" encoding=\"UTF-8\"?>\n" ++
  "<project>\n" ++
  "    <name>Preview Test</name>\n" ++
  "    <version>1.0.0</version>\n" ++
  "    <description>Sample XML file for preview testing</description>\n" ++
  "    <features>\n" ++
  "        <feature name=\"Syntax highlighting\" enabled=\"true\"/>\n" ++
  "        <feature name=\"Dark theme\" enabled=\"true\"/>\n" ++
  "        <feature name=\"Line numbers\" enabled=\"true\"/>\n" ++
  "    </features>\n" ++
  "    <settings>\n" ++
  "        <setting key=\"maxSize\" value=\"5000000\"/>\n" ++
  "        <setting key=\"timeout\" value=\"10\"/>\n" ++
  "    </settings>\n" ++
  "</project>\n"

/-- Exact content written to `sample.csv` by `create_test_directory`. -/
def sampleCsvContent : String :=
  "id,name,value,status\n" ++
  "1,Item A,100,active\n" ++
  "2,Item B,200,inactive\n" ++
  "3,Item C,300,active\n" ++
  "4,Item D,400,pending\n" ++
  "5,Item E,500,active\n"

/-- Exact content written to `sample.sql` by `create_test_directory`. -/
def sampleSqlContent : String :=
  "-- Sample SQL file for preview testing\n" ++
  "-- Create a sample table\n" ++
  "\n" ++
  "CREATE TABLE users (\n" ++
  "    id INT PRIMARY KEY AUTO_INCREMENT,\n" ++
  "    username VARCHAR(50) NOT NULL,\n" ++
  "    email VARCHAR(100) UNIQUE,\n" ++
  "    created_at TIMESTAMP DEFAULT CURRENT_TIMESTAMP\n" ++
  ");\n" ++
  "\n" ++
  "-- Insert sample data\n" ++
  "INSERT INTO users (username, email) VALUES\n" ++
  "(\x27john_doe\x27, \x27john@example.com\x27),\n" ++
  "(\x27jane_smith\x27, \x27jane@example.com\x27),\n" ++
  "(\x27bob_wilson\x27, \x27bob@example.com\x27);\n" ++
  "\n" ++
  "-- Select all users\n" ++
  "SELECT * FROM users WHERE id > 0 ORDER BY created_at DESC;\n" ++
  "\n" ++
  "-- Update a user\n" ++
  "UPDATE users SET email = \x27new_email@example.com\x27 WHERE username = \x27john_doe\x27;\n"
/-- Embedding of `os.path.join(dir, name)` for a directory and one bare
component, as used throughout `create_test_directory`. -/
def pathJoin (dir name : String) : String :=
  dir ++ "/" ++ name

/-- The ten `(filename, content)` pairs, in the order the source writes
them (sections `# 1.` to `# 10.` of `create_test_directory`). -/
def testFiles : List (String × String) :=
  [("sample.txt", sampleTxtContent),
   ("sample.json", sampleJsonContent),
   ("sample.py", samplePyContent),
   ("Sample.cs", sampleCsContent),
   ("sample.html", sampleHtmlContent),
   ("sample.css", sampleCssContent),
   ("README.md", readmeMdContent),
   ("sample.xml", sampleXmlContent),
   ("sample.csv", sampleCsvContent),
   ("sample.sql", sampleSqlContent)]

/-- The separator line `"-" * 50` printed before and after the per-file
confirmation lines. -/
def sepLine : String :=
  String.mk (List.replicate 50 '-')

/-- One effect of the script: `os.makedirs(path, exist_ok=True)`,
`open(path, "w", encoding=enc).write(content)`, or `print(text)`. -/
inductive Op where
  | makeDirs : String → Op
  | writeFile : (path : String) → (content : String) → (encoding : String) → Op
  | printLine : String → Op

/-- Shallow embedding of `create_test_directory` from `src/test_preview.py`:
the trace of effects the function performs, in source order, paired with the
value it returns (`test_dir`).  `scriptDir` stands for
`os.path.dirname(os.path.abspath(__file__))`. -/
def create_test_directory (scriptDir : String) : List Op × String :=
  let test_dir := pathJoin scriptDir "test_preview_files"
  ([Op.makeDirs test_dir,
    Op.printLine ("Creating test files in: " ++ test_dir),
    Op.printLine sepLine] ++
   testFiles.flatMap (fun nc =>
     [Op.writeFile (pathJoin test_dir nc.1) nc.2 "utf-8",
      Op.printLine ("✅ Created: " ++ pathJoin test_dir nc.1)]) ++
   [Op.printLine sepLine,
    Op.printLine "\n🎉 Test files created successfully!",
    Op.printLine "\nTo test preview functionality:",
    Op.printLine "1. Open OfflineProjectManager",
    Op.printLine "2. Create or open a project",
    Op.printLine ("3. Add folder: " ++ test_dir),
    Op.printLine "4. Click on each file to test preview"],
   test_dir)

/-- The resolved output directory of a run rooted at `scriptDir`. -/
def test_dir (scriptDir : String) : String :=
  pathJoin scriptDir "test_preview_files"

/-- Filesystem model: which directories exist and what content each file
path holds. -/
@[ext]
structure FS where
  dirs : String → Bool
  files : String → Option String

/-- Effect of `os.makedirs(p, exist_ok=True)` on the filesystem: the
directory exists afterwards, and an already existing directory is not an
error. -/
def FS.mkdir (fs : FS) (p : String) : FS :=
  { fs with dirs := fun q => q == p || fs.dirs q }

/-- Effect of `open(p, "w").write(c)` on the filesystem: the file holds
exactly `c` afterwards, whatever it held before. -/
def FS.write (fs : FS) (p c : String) : FS :=
  { fs with files := fun q => if q == p then some c else fs.files q }

/-- Permission environment: which directory creations and file writes the
operating system allows.  A denied operation raises (an uncaught `OSError`
in the Python source). -/
structure Env where
  canMakeDir : String → Bool
  canWrite : String → Bool

/-- Outcome of executing a trace: the error that aborted it (if any), the
filesystem state reached, and the console lines emitted. -/
structure RunResult where
  error : Option String
  fs : FS
  out : List String

/-- Execute a trace of effects.  The script has no try/except, so the first
denied operation aborts the run on the spot: the remaining operations are
not performed and the state already reached is kept. -/
def runOps (env : Env) : FS → List String → List Op → RunResult
  | fs, out, [] => ⟨none, fs, out⟩
  | fs, out, Op.makeDirs p :: rest =>
      if env.canMakeDir p then runOps env (fs.mkdir p) out rest
      else ⟨some ("OSError: cannot create directory " ++ p), fs, out⟩
  | fs, out, Op.writeFile p c _ :: rest =>
      if env.canWrite p then runOps env (fs.write p c) out rest
      else ⟨some ("OSError: cannot write " ++ p), fs, out⟩
  | fs, out, Op.printLine s :: rest => runOps env fs (out ++ [s]) rest

/-- Pure effect of one operation on the filesystem (print does nothing). -/
def applyOp (fs : FS) : Op → FS
  | Op.makeDirs p => fs.mkdir p
  | Op.writeFile p c _ => fs.write p c
  | Op.printLine _ => fs

/-- Pure effect of a whole trace on the filesystem. -/
def applyOps (fs : FS) (l : List Op) : FS :=
  l.foldl applyOp fs

/-- Pure effect of a list of `(path, content)` writes on the filesystem. -/
def applyWrites (fs : FS) (l : List (String × String)) : FS :=
  l.foldl (fun acc pc => acc.write pc.1 pc.2) fs

/-- The console lines a trace prints when run to completion. -/
def printed : List Op → List String
  | [] => []
  | Op.printLine s :: rest => s :: printed rest
  | Op.makeDirs _ :: rest => printed rest
  | Op.writeFile _ _ _ :: rest => printed rest

/-- An operation the environment allows. -/
def permitted (env : Env) : Op → Prop
  | Op.makeDirs p => env.canMakeDir p = true
  | Op.writeFile p _ _ => env.canWrite p = true
  | Op.printLine _ => True

/-- The ten `(absolute path, content)` writes of a run rooted at
`scriptDir`, in source order. -/
def targetWrites (scriptDir : String) : List (String × String) :=
  testFiles.map fun nc => (pathJoin (test_dir scriptDir) nc.1, nc.2)

/-- The ten `"✅ Created: <absolute path>"` confirmation lines. -/
def createdLines (scriptDir : String) : List String :=
  testFiles.map fun nc => "✅ Created: " ++ pathJoin (test_dir scriptDir) nc.1

/-- The instructional summary block printed after the second separator. -/
def summaryLines (scriptDir : String) : List String :=
  ["\n🎉 Test files created successfully!",
   "\nTo test preview functionality:",
   "1. Open OfflineProjectManager",
   "2. Create or open a project",
   "3. Add folder: " ++ test_dir scriptDir,
   "4. Click on each file to test preview"]

/-- The full console transcript of a successful run. -/
def expectedOutput (scriptDir : String) : List String :=
  ["Creating test files in: " ++ test_dir scriptDir, sepLine] ++
    createdLines scriptDir ++ sepLine :: summaryLines scriptDir

/-- The paths of the write operations of a run, in source order. -/
def writtenPaths (scriptDir : String) : List String :=
  (create_test_directory scriptDir).1.filterMap fun op =>
    match op with
    | Op.writeFile p _ _ => some p
    | _ => none

/-- The encodings of the write operations of a run, in source order. -/
def writeEncodings (scriptDir : String) : List String :=
  (create_test_directory scriptDir).1.filterMap fun op =>
    match op with
    | Op.writeFile _ _ e => some e
    | _ => none

/-- An environment that allows everything (a writable disk). -/
def envAll : Env :=
  ⟨fun _ => true, fun _ => true⟩

/-- An environment that denies everything (an unwritable disk). -/
def envNone : Env :=
  ⟨fun _ => false, fun _ => false⟩

/-- The empty filesystem. -/
def fsEmpty : FS :=
  ⟨fun _ => false, fun _ => none⟩
/-! ### Generic facts about the executor -/

/-- A run that finished without error was fully permitted: with no
try/except in the source, a denied operation would have surfaced. -/
theorem runOps_error_none_permitted (env : Env) :
    ∀ (ops : List Op) (fs : FS) (out : List String),
      (runOps env fs out ops).error = none → ∀ op ∈ ops, permitted env op := by
  intro ops
  induction ops with
  | nil => intro fs out _ op hop; cases hop
  | cons op rest ih =>
    intro fs out h o ho
    cases op with
    | makeDirs p =>
      by_cases hc : env.canMakeDir p
      · rcases List.mem_cons.mp ho with h1 | h1
        · subst h1; exact hc
        · exact ih _ _ (by simpa [runOps, hc] using h) o h1
      · simp [runOps, hc] at h
    | writeFile p c e =>
      by_cases hc : env.canWrite p
      · rcases List.mem_cons.mp ho with h1 | h1
        · subst h1; exact hc
        · exact ih _ _ (by simpa [runOps, hc] using h) o h1
      · simp [runOps, hc] at h
    | printLine s =>
      rcases List.mem_cons.mp ho with h1 | h1
      · subst h1; trivial
      · exact ih _ _ (by simpa [runOps] using h) o h1

/-- A fully permitted run succeeds, applies every operation to the
filesystem, and appends every printed line to the console. -/
theorem runOps_success (env : Env) :
    ∀ (ops : List Op) (fs : FS) (out : List String),
      (∀ op ∈ ops, permitted env op) →
      runOps env fs out ops = ⟨none, applyOps fs ops, out ++ printed ops⟩ := by
  intro ops
  induction ops with
  | nil => intro fs out _; simp [runOps, applyOps, printed]
  | cons op rest ih =>
    intro fs out h
    have hrest : ∀ o ∈ rest, permitted env o := fun o ho =>
      h o (List.mem_cons_of_mem op ho)
    cases op with
    | makeDirs p =>
      have hop : env.canMakeDir p = true := h _ (List.mem_cons_self _ _)
      simp [runOps, hop, applyOps, applyOp, printed, ih _ _ hrest]
    | writeFile p c e =>
      have hop : env.canWrite p = true := h _ (List.mem_cons_self _ _)
      simp [runOps, hop, applyOps, applyOp, printed, ih _ _ hrest]
    | printLine s =>
      simp [runOps, applyOps, applyOp, printed, ih _ _ hrest]

/-- Whether or not a run aborts, its console output is a prefix of the
transcript of a complete run: nothing is printed out of order and nothing
is printed after a failure. -/
theorem runOps_out_front (env : Env) :
    ∀ (ops : List Op) (fs : FS) (out : List String),
      (runOps env fs out ops).out <+: out ++ printed ops := by
  intro ops
  induction ops with
  | nil => intro fs out; simp [runOps, printed]
  | cons op rest ih =>
    intro fs out
    cases op with
    | makeDirs p =>
      by_cases hc : env.canMakeDir p
      · simpa [runOps, hc, printed] using ih (fs.mkdir p) out
      · simp only [runOps, hc, if_false, printed]
        exact List.prefix_append _ _
    | writeFile p c e =>
      by_cases hc : env.canWrite p
      · simpa [runOps, hc, printed] using ih (fs.write p c) out
      · simp only [runOps, hc, if_false, printed]
        exact List.prefix_append _ _
    | printLine s =>
      have := ih fs (out ++ [s])
      simpa [runOps, printed] using this

/-! ### Facts about the filesystem model -/

/-- Writes do not create or remove directories. -/
theorem applyWrites_dirs (fs : FS) :
    ∀ l : List (String × String), (applyWrites fs l).dirs = fs.dirs := by
  intro l
  induction l generalizing fs with
  | nil => rfl
  | cons x t ih => exact ih (fs.write x.1 x.2)

/-- A path no write targets keeps its previous content. -/
theorem applyWrites_files_not_mem (fs : FS) :
    ∀ (l : List (String × String)) (q : String), q ∉ l.map Prod.fst →
      (applyWrites fs l).files q = fs.files q := by
  intro l
  induction l generalizing fs with
  | nil => intro q _; rfl
  | cons x t ih =>
    intro q hq
    have hq1 : q ≠ x.1 := fun h => hq (by simp [h])
    have hq2 : q ∉ t.map Prod.fst := fun h => hq (by simp [h])
    have hstep : applyWrites fs (x :: t) = applyWrites (fs.write x.1 x.2) t := rfl
    rw [hstep, ih (fs.write x.1 x.2) q hq2]
    simp [FS.write, beq_iff_eq, hq1]

/-- With pairwise distinct paths, each written path ends up holding its own
content. -/
theorem applyWrites_files_mem (fs : FS) :
    ∀ (l : List (String × String)) (p c : String), (p, c) ∈ l →
      (l.map Prod.fst).Nodup → (applyWrites fs l).files p = some c := by
  intro l
  induction l generalizing fs with
  | nil => intro p c h; cases h
  | cons x t ih =>
    intro p c h hnd
    have hnd' : x.1 ∉ t.map Prod.fst ∧ (t.map Prod.fst).Nodup := by
      simpa [List.nodup_cons] using hnd
    rcases List.mem_cons.mp h with h1 | h1
    · subst h1
      have hstep : applyWrites fs ((p, c) :: t) = applyWrites (fs.write p c) t := rfl
      rw [hstep, applyWrites_files_not_mem (fs.write p c) t p hnd'.1]
      simp [FS.write]
    · exact ih (fs.write x.1 x.2) p c h1 hnd'.2

/-- Writes to distinct paths commute. -/
theorem FS.write_comm (fs : FS) (a b ca cb : String) (hab : a ≠ b) :
    (fs.write a ca).write b cb = (fs.write b cb).write a ca := by
  have hf : ((fs.write a ca).write b cb).files = ((fs.write b cb).write a ca).files := by
    funext q
    by_cases hqb : q = b
    · subst hqb
      simp [FS.write, beq_iff_eq, Ne.symm hab]
    · by_cases hqa : q = a
      · subst hqa
        simp [FS.write, beq_iff_eq, hqb]
      · simp [FS.write, beq_iff_eq, hqa, hqb]
  exact FS.ext rfl hf

/-- With pairwise distinct paths, applying the writes in any order yields
the same filesystem. -/
theorem applyWrites_perm {l l' : List (String × String)} (h : l.Perm l') :
    (l.map Prod.fst).Nodup → ∀ fs, applyWrites fs l = applyWrites fs l' := by
  induction h with
  | nil => intro _ fs; rfl
  | cons x hp ih =>
    intro hnd fs
    have := ih (List.Nodup.of_cons (by simpa using hnd)) (fs.write x.1 x.2)
    simpa [applyWrites] using this
  | swap x y t =>
    intro hnd fs
    have hxy : y.1 ≠ x.1 := by
      intro h
      have hnd2 : (y.1 :: x.1 :: t.map Prod.fst).Nodup := by simpa using hnd
      exact (List.nodup_cons.mp hnd2).1 (by simp [h])
    show applyWrites ((fs.write y.1 y.2).write x.1 x.2) t =
      applyWrites ((fs.write x.1 x.2).write y.1 y.2) t
    rw [FS.write_comm fs y.1 x.1 y.2 x.2 hxy]
  | trans h1 h2 ih1 ih2 =>
    intro hnd fs
    rw [ih1 hnd fs, ih2 (((h1.map Prod.fst).nodup_iff).mp hnd) fs]

/-! ### Facts about the program trace -/

/-- `pathJoin dir` is injective in the file name. -/
theorem pathJoin_inj (dir : String) : Function.Injective (fun n => pathJoin dir n) := by
  intro a b h
  have h2 : (dir ++ "/").data ++ a.data = (dir ++ "/").data ++ b.data := by
    have := congrArg String.data h
    simpa [pathJoin, String.data_append] using this
  exact String.ext (List.append_cancel_left h2)

/-- The ten target filenames are pairwise distinct. -/
theorem testFiles_names_nodup : (testFiles.map Prod.fst).Nodup := by
  decide

/-- The ten absolute target paths are pairwise distinct. -/
theorem targetWrites_keys_nodup (s : String) :
    ((targetWrites s).map Prod.fst).Nodup := by
  have h : (targetWrites s).map Prod.fst =
      (testFiles.map Prod.fst).map (fun n => pathJoin (test_dir s) n) := by
    simp [targetWrites, List.map_map, Function.comp]
  rw [h]
  exact testFiles_names_nodup.map (pathJoin_inj (test_dir s))

/-- The filesystem effect of the whole trace is: create the output
directory, then perform the ten writes. -/
theorem applyOps_program (s : String) (fs : FS) :
    applyOps fs (create_test_directory s).1 =
      applyWrites (fs.mkdir (test_dir s)) (targetWrites s) :=
  rfl

/-- The console effect of the whole trace is exactly `expectedOutput`. -/
theorem printed_program (s : String) :
    printed (create_test_directory s).1 = expectedOutput s :=
  rfl

/-- Characterization of a successful run of `create_test_directory`: the
final filesystem is the directory creation followed by the ten writes, and
the console holds exactly the expected transcript. -/
theorem run_characterization (env : Env) (s : String) (fs : FS) (out : List String)
    (h : (runOps env fs out (create_test_directory s).1).error = none) :
    runOps env fs out (create_test_directory s).1 =
      ⟨none, applyWrites (fs.mkdir (test_dir s)) (targetWrites s),
        out ++ expectedOutput s⟩ := by
  have hperm := runOps_error_none_permitted env (create_test_directory s).1 fs out h
  rw [runOps_success env (create_test_directory s).1 fs out hperm,
    applyOps_program, printed_program]

/-- The lines of the transcript that start with `✅ Created: ` are exactly
the ten confirmation lines. -/
theorem expectedOutput_filter_created (s : String) :
    (expectedOutput s).filter
        (fun line => "✅ Created: ".data.isPrefixOf line.data) = createdLines s := by
  have htrue : ∀ p : String,
      ("✅ Created: ".data.isPrefixOf ("✅ Created: " ++ p).data) = true := by
    intro p
    rw [String.data_append]
    exact List.isPrefixOf_iff_prefix.mpr (List.prefix_append _ _)
  have h1 : ("✅ Created: ".data.isPrefixOf
      ("Creating test files in: " ++ test_dir s).data) = false := rfl
  have h2 : ("✅ Created: ".data.isPrefixOf sepLine.data) = false := rfl
  have h3 : ("✅ Created: ".data.isPrefixOf
      ("\n🎉 Test files created successfully!" : String).data) = false := rfl
  have h4 : ("✅ Created: ".data.isPrefixOf
      ("\nTo test preview functionality:" : String).data) = false := rfl
  have h5 : ("✅ Created: ".data.isPrefixOf
      ("1. Open OfflineProjectManager" : String).data) = false := rfl
  have h6 : ("✅ Created: ".data.isPrefixOf
      ("2. Create or open a project" : String).data) = false := rfl
  have h7 : ("✅ Created: ".data.isPrefixOf
      ("3. Add folder: " ++ test_dir s).data) = false := rfl
  have h8 : ("✅ Created: ".data.isPrefixOf
      ("4. Click on each file to test preview" : String).data) = false := rfl
  simp [expectedOutput, createdLines, summaryLines, testFiles, List.filter_cons,
    List.filter_append, htrue, h1, h2, h3, h4, h5, h6, h7, h8]

/-- After the ten writes, each target path holds its own content. -/
theorem applyWrites_target_files (s : String) (fs : FS) (nc : String × String)
    (h : nc ∈ testFiles) :
    (applyWrites fs (targetWrites s)).files (pathJoin (test_dir s) nc.1) = some nc.2 := by
  apply applyWrites_files_mem
  · exact List.mem_map_of_mem (fun nc => (pathJoin (test_dir s) nc.1, nc.2)) h
  · exact targetWrites_keys_nodup s
/-! ### The claims -/

/-- C1: after every successful run of `create_test_directory`, each of the
ten target filenames exists as a file directly inside the resolved output
directory, holding exactly the fixed literal content the source specifies
for it. -/
theorem C1_files_exist_with_exact_content (s : String) (env : Env) (fs : FS)
    (out : List String)
    (h : (runOps env fs out (create_test_directory s).1).error = none) :
    ∀ nc ∈ testFiles,
      (runOps env fs out (create_test_directory s).1).fs.files
          (pathJoin (test_dir s) nc.1) = some nc.2 := by
  intro nc hnc
  rw [run_characterization env s fs out h]
  exact applyWrites_target_files s _ nc hnc

/-- Witness for C1: a concrete fully permitted run; `sample.txt` holds its
literal content. -/
theorem C1_files_exist_with_exact_content_witness :
    (runOps envAll fsEmpty [] (create_test_directory "/base").1).error = none ∧
      (runOps envAll fsEmpty [] (create_test_directory "/base").1).fs.files
          (pathJoin (test_dir "/base") "sample.txt") = some sampleTxtContent :=
  ⟨rfl, C1_files_exist_with_exact_content "/base" envAll fsEmpty [] rfl
    ("sample.txt", sampleTxtContent) (List.Mem.head _)⟩

/-- C2: if the directory creation step is denied, the run aborts with an
error before performing any file write: the filesystem and the console are
exactly as they were. -/
theorem C2_mkdir_failure_writes_nothing (s : String) (env : Env) (fs : FS)
    (out : List String) (h : env.canMakeDir (test_dir s) = false) :
    (runOps env fs out (create_test_directory s).1).error.isSome = true ∧
      (runOps env fs out (create_test_directory s).1).fs = fs ∧
      (runOps env fs out (create_test_directory s).1).out = out := by
  have h' : env.canMakeDir (pathJoin s "test_preview_files") = false := h
  simp [create_test_directory, runOps, h']

/-- Witness for C2: a concrete denied run aborts with an error. -/
theorem C2_mkdir_failure_writes_nothing_witness :
    envNone.canMakeDir (test_dir "/base") = false ∧
      (runOps envNone fsEmpty [] (create_test_directory "/base").1).error.isSome = true :=
  ⟨rfl, (C2_mkdir_failure_writes_nothing "/base" envNone fsEmpty [] rfl).1⟩

/-- C3: a second run immediately after a successful one also succeeds
(directory creation is idempotent), and it leaves the filesystem — both
file contents and directories — exactly as the first run left it:
last-write-wins overwrites, no duplicates. -/
theorem C3_second_run_idempotent (s : String) (env : Env) (fs : FS)
    (h : (runOps env fs [] (create_test_directory s).1).error = none) :
    (runOps env (runOps env fs [] (create_test_directory s).1).fs []
        (create_test_directory s).1).error = none ∧
      (∀ q, (runOps env (runOps env fs [] (create_test_directory s).1).fs []
            (create_test_directory s).1).fs.files q =
          (runOps env fs [] (create_test_directory s).1).fs.files q) ∧
      (∀ q, (runOps env (runOps env fs [] (create_test_directory s).1).fs []
            (create_test_directory s).1).fs.dirs q =
          (runOps env fs [] (create_test_directory s).1).fs.dirs q) := by
  have hperm := runOps_error_none_permitted env (create_test_directory s).1 fs [] h
  have e1 : (runOps env fs [] (create_test_directory s).1).fs =
      applyWrites (fs.mkdir (test_dir s)) (targetWrites s) := by
    rw [run_characterization env s fs [] h]
  have h2 : (runOps env (runOps env fs [] (create_test_directory s).1).fs []
      (create_test_directory s).1).error = none := by
    rw [runOps_success env (create_test_directory s).1 _ [] hperm]
  have e2 : (runOps env (runOps env fs [] (create_test_directory s).1).fs []
      (create_test_directory s).1).fs =
      applyWrites ((applyWrites (fs.mkdir (test_dir s)) (targetWrites s)).mkdir
        (test_dir s)) (targetWrites s) := by
    rw [run_characterization env s _ [] h2, e1]
  refine ⟨h2, ?_, ?_⟩
  · intro q
    rw [e2, e1]
    by_cases hq : q ∈ (targetWrites s).map Prod.fst
    · rcases List.mem_map.mp hq with ⟨pc, hpc, rfl⟩
      rw [applyWrites_files_mem _ _ pc.1 pc.2 (by simpa using hpc)
          (targetWrites_keys_nodup s),
        applyWrites_files_mem _ _ pc.1 pc.2 (by simpa using hpc)
          (targetWrites_keys_nodup s)]
    · rw [applyWrites_files_not_mem
          ((applyWrites (fs.mkdir (test_dir s)) (targetWrites s)).mkdir (test_dir s))
          (targetWrites s) q hq]
      rfl
  · intro q
    rw [e2, e1]
    simp only [applyWrites_dirs, FS.mkdir]
    cases q == test_dir s <;> simp

/-- Witness for C3: a concrete first run succeeds, and so does the second
run started from its final state. -/
theorem C3_second_run_idempotent_witness :
    (runOps envAll fsEmpty [] (create_test_directory "/base").1).error = none ∧
      (runOps envAll (runOps envAll fsEmpty [] (create_test_directory "/base").1).fs []
          (create_test_directory "/base").1).error = none :=
  ⟨rfl, (C3_second_run_idempotent "/base" envAll fsEmpty rfl).1⟩

/-- C4: a successful run against an empty console prints exactly: a header
line, a separator, the ten `✅ Created: <absolute path>` confirmation lines
(one per file), a separator, and the instructional summary block, which
references OfflineProjectManager; the confirmation lines are exactly the
lines of the transcript starting with `✅ Created: `. -/
theorem C4_console_output (s : String) (env : Env) (fs : FS)
    (h : (runOps env fs [] (create_test_directory s).1).error = none) :
    (runOps env fs [] (create_test_directory s).1).out =
        ["Creating test files in: " ++ test_dir s, sepLine] ++
          createdLines s ++ sepLine :: summaryLines s ∧
      (expectedOutput s).filter
          (fun line => "✅ Created: ".data.isPrefixOf line.data) = createdLines s ∧
      (createdLines s).length = 10 ∧
      "1. Open OfflineProjectManager" ∈ summaryLines s := by
  refine ⟨?_, expectedOutput_filter_created s, rfl, ?_⟩
  · rw [run_characterization env s fs [] h]
    simp [expectedOutput]
  · exact List.Mem.tail _ (List.Mem.tail _ (List.Mem.head _))

/-- Witness for C4: a concrete successful run mentions
OfflineProjectManager in its summary block. -/
theorem C4_console_output_witness :
    (runOps envAll fsEmpty [] (create_test_directory "/base").1).error = none ∧
      "1. Open OfflineProjectManager" ∈ summaryLines "/base" :=
  ⟨rfl, (C4_console_output "/base" envAll fsEmpty rfl).2.2.2⟩

/-- C5: `create_test_directory` returns the resolved output directory — the
fixed subfolder `test_preview_files` of the script's own directory — and
after a successful run that directory exists. -/
theorem C5_returns_created_dir (s : String) (env : Env) (fs : FS)
    (out : List String)
    (h : (runOps env fs out (create_test_directory s).1).error = none) :
    (create_test_directory s).2 = pathJoin s "test_preview_files" ∧
      (runOps env fs out (create_test_directory s).1).fs.dirs
          ((create_test_directory s).2) = true := by
  have e1 : (runOps env fs out (create_test_directory s).1).fs =
      applyWrites (fs.mkdir (test_dir s)) (targetWrites s) := by
    rw [run_characterization env s fs out h]
  refine ⟨rfl, ?_⟩
  rw [e1]
  simp only [applyWrites_dirs]
  show ((fs.mkdir (test_dir s)).dirs (test_dir s)) = true
  simp [FS.mkdir]

/-- Witness for C5: the return value of a concrete run is the resolved
directory path. -/
theorem C5_returns_created_dir_witness :
    (runOps envAll fsEmpty [] (create_test_directory "/base").1).error = none ∧
      (create_test_directory "/base").2 = pathJoin "/base" "test_preview_files" :=
  ⟨rfl, (C5_returns_created_dir "/base" envAll fsEmpty [] rfl).1⟩

/-- C6: the function catches nothing: a run ends without error exactly when
the environment permits every one of its operations — any filesystem denial
propagates and aborts the run — and even an aborted run's console output is
a prefix of the full transcript, so nothing is recovered beyond the
confirmation lines already printed before the failing operation. -/
theorem C6_errors_propagate_uncaught (s : String) (env : Env) (fs : FS)
    (out : List String) :
    ((runOps env fs out (create_test_directory s).1).error = none ↔
        ∀ op ∈ (create_test_directory s).1, permitted env op) ∧
      (runOps env fs out (create_test_directory s).1).out <+: out ++ expectedOutput s := by
  refine ⟨⟨runOps_error_none_permitted env _ fs out, ?_⟩, ?_⟩
  · intro hperm
    rw [runOps_success env _ fs out hperm]
  · have h := runOps_out_front env (create_test_directory s).1 fs out
    rwa [printed_program] at h

/-- C7: each of the ten writes targets `outputDirectory/name` as a text
write with encoding `utf-8`; after a successful run the target holds
exactly the new content regardless of what the filesystem held before, and
every path outside the ten targets is untouched — overwrite in place, no
backup, no merge. -/
theorem C7_utf8_overwrite (s : String) (env : Env) (fs : FS)
    (out : List String)
    (h : (runOps env fs out (create_test_directory s).1).error = none) :
    writeEncodings s = List.replicate 10 "utf-8" ∧
      (∀ nc ∈ testFiles,
        (runOps env fs out (create_test_directory s).1).fs.files
            (pathJoin (test_dir s) nc.1) = some nc.2) ∧
      (∀ q, q ∉ (targetWrites s).map Prod.fst →
        (runOps env fs out (create_test_directory s).1).fs.files q = fs.files q) := by
  have e1 : (runOps env fs out (create_test_directory s).1).fs =
      applyWrites (fs.mkdir (test_dir s)) (targetWrites s) := by
    rw [run_characterization env s fs out h]
  refine ⟨rfl, ?_, ?_⟩
  · intro nc hnc
    rw [e1]
    exact applyWrites_target_files s _ nc hnc
  · intro q hq
    rw [e1, applyWrites_files_not_mem _ _ q hq]
    rfl

/-- Witness for C7: a concrete successful run uses encoding `utf-8` for
all ten writes. -/
theorem C7_utf8_overwrite_witness :
    (runOps envAll fsEmpty [] (create_test_directory "/base").1).error = none ∧
      writeEncodings "/base" = List.replicate 10 "utf-8" :=
  ⟨rfl, (C7_utf8_overwrite "/base" envAll fsEmpty [] rfl).1⟩

/-- C8: the ten file writes are independent and order-insensitive:
performing them (after directory creation) in any permuted order yields the
same file contents as the source order, and a successful run's filesystem
is exactly the directory creation followed by those writes in source
order. -/
theorem C8_writes_order_insensitive (s : String) (fs : FS)
    (l : List (String × String)) (hperm : (targetWrites s).Perm l) :
    (∀ q, (applyWrites fs l).files q = (applyWrites fs (targetWrites s)).files q) ∧
      ∀ (env : Env) (out : List String),
        (runOps env fs out (create_test_directory s).1).error = none →
        (runOps env fs out (create_test_directory s).1).fs =
          applyWrites (fs.mkdir (test_dir s)) (targetWrites s) := by
  constructor
  · intro q
    rw [applyWrites_perm hperm (targetWrites_keys_nodup s) fs]
  · intro env out h
    rw [run_characterization env s fs out h]

/-- Witness for C8: the reversed write order yields the same content for
`sample.txt` as the source order. -/
theorem C8_writes_order_insensitive_witness :
    (targetWrites "/base").Perm (targetWrites "/base").reverse ∧
      (applyWrites fsEmpty (targetWrites "/base").reverse).files
          (pathJoin (test_dir "/base") "sample.txt") =
        (applyWrites fsEmpty (targetWrites "/base")).files
          (pathJoin (test_dir "/base") "sample.txt") :=
  ⟨(List.reverse_perm (targetWrites "/base")).symm,
    (C8_writes_order_insensitive "/base" fsEmpty (targetWrites "/base").reverse
        ((List.reverse_perm (targetWrites "/base")).symm)).1 _⟩

/-- C9: determinism: two successful runs rooted at the same script
directory — whatever their environments, initial filesystems and initial
consoles — give every one of the ten files the same content and append the
same transcript to their consoles; nothing written or printed depends on
anything but the script's own path. -/
theorem C9_deterministic (s : String) (env1 env2 : Env) (fs1 fs2 : FS)
    (out1 out2 : List String)
    (h1 : (runOps env1 fs1 out1 (create_test_directory s).1).error = none)
    (h2 : (runOps env2 fs2 out2 (create_test_directory s).1).error = none) :
    (∀ nc ∈ testFiles,
        (runOps env1 fs1 out1 (create_test_directory s).1).fs.files
            (pathJoin (test_dir s) nc.1) =
          (runOps env2 fs2 out2 (create_test_directory s).1).fs.files
            (pathJoin (test_dir s) nc.1)) ∧
      (runOps env1 fs1 out1 (create_test_directory s).1).out =
        out1 ++ expectedOutput s ∧
      (runOps env2 fs2 out2 (create_test_directory s).1).out =
        out2 ++ expectedOutput s := by
  have e1 : (runOps env1 fs1 out1 (create_test_directory s).1).fs =
      applyWrites (fs1.mkdir (test_dir s)) (targetWrites s) := by
    rw [run_characterization env1 s fs1 out1 h1]
  have e2 : (runOps env2 fs2 out2 (create_test_directory s).1).fs =
      applyWrites (fs2.mkdir (test_dir s)) (targetWrites s) := by
    rw [run_characterization env2 s fs2 out2 h2]
  refine ⟨?_, ?_, ?_⟩
  · intro nc hnc
    rw [e1, e2, applyWrites_target_files s _ nc hnc,
      applyWrites_target_files s _ nc hnc]
  · rw [run_characterization env1 s fs1 out1 h1]
  · rw [run_characterization env2 s fs2 out2 h2]

/-- Witness for C9: two concrete successful runs with different initial
consoles. -/
theorem C9_deterministic_witness :
    (runOps envAll fsEmpty [] (create_test_directory "/base").1).error = none ∧
      (runOps envAll fsEmpty ["x"] (create_test_directory "/base").1).error = none ∧
      (runOps envAll fsEmpty [] (create_test_directory "/base").1).out =
        [] ++ expectedOutput "/base" :=
  ⟨rfl, rfl,
    (C9_deterministic "/base" envAll envAll fsEmpty fsEmpty [] ["x"] rfl rfl).2.1⟩

/-- C10: every written path is the join of the returned output directory
with a bare target filename containing no path separator, and the ten paths
are pairwise distinct — so no write clobbers an earlier one and exactly ten
distinct files are produced. -/
theorem C10_write_paths_distinct (s : String) :
    writtenPaths s =
        (testFiles.map Prod.fst).map (fun n => pathJoin (create_test_directory s).2 n) ∧
      (∀ n ∈ testFiles.map Prod.fst, '/' ∉ n.data ∧ '\\' ∉ n.data) ∧
      (writtenPaths s).Nodup ∧
      (writtenPaths s).length = 10 := by
  refine ⟨rfl, by decide, ?_, rfl⟩
  have h : writtenPaths s = (testFiles.map Prod.fst).map (fun n => pathJoin (test_dir s) n) :=
    rfl
  rw [h]
  exact testFiles_names_nodup.map (pathJoin_inj (test_dir s))
